import Mathlib

/-!
Verification of the bleexplore device supervisor and notification dispatch
engine (`bleexplore.py`) against its natural-language specification.

The Python source is shallowly embedded: dictionaries become association
lists (insertion-ordered, as in CPython), exceptions become explicit
`Except`/outcome values, and the per-device supervisor loop becomes a trace
function over a schedule of environment outcomes.  External collaborators
that are not part of the supervised source (the device-family decoder
modules, the UUID naming table) are abstracted as parameters, following the
interface the specification gives for them.
-/

namespace BleExplore

/-- Association-list lookup, mirroring Python `d[k]` / `k in d` on a dict
(CPython dicts preserve insertion order; lookup finds the unique binding). -/
def lookupA {α : Type} : List (String × α) → String → Option α
  | [], _ => none
  | (k, v) :: rest, key => if k = key then some v else lookupA rest key

/-- Association-list update, mirroring Python `d[k] = v`: replaces the
existing binding in place, or appends a new binding at the end. -/
def setA {α : Type} : List (String × α) → String → α → List (String × α)
  | [], key, v => [(key, v)]
  | (k, w) :: rest, key, v =>
    if k = key then (k, v) :: rest else (k, w) :: setA rest key v

/-- The static Support Table `supported_characteristics` from
`bleexplore.py` lines 68-125: service name ↦ `None` (the explicit
no-capabilities marker) or a category map (`read`/`notify`/`ignore`, each
category present only when the source dict lists it) to characteristic
names. -/
def supported_characteristics :
    List (String × Option (List (String × List String))) :=
  [ ("Battery Service", some
      [ ("read", ["Battery Level"])
      , ("notify", [])
      , ("ignore", []) ])
  , ("Current Time Service", none)
  , ("Heart Rate", some
      [ ("read", ["Heart Rate Control Point"])
      , ("notify", ["Heart Rate Measurement"])
      , ("ignore", ["Body Sensor Location"]) ])
  , ("Device Information", some
      [ ("read",
          [ "Manufacturer Name String", "Model Number String"
          , "Serial Number String", "Hardware Revision String"
          , "Firmware Revision String", "Software Revision String" ])
      , ("ignore",
          [ "PnP ID", "System ID"
          , "IEEE 11073-20601 Regulatory Certification Data List" ]) ])
  , ("Moxy SMO2 Service", some
      [ ("read", [])
      , ("notify", ["Moxy SMO2 Data"])
      , ("ignore",
          [ "Moxy SMO2 Data Packet", "Moxy SMO2 Data Point Value"
          , "Moxy SMO2 Data Point Control", "Moxy SMO2 Data Range Request"
          , "Moxy SMO2 Data Point Upload" ]) ])
  , ("Polar Feature Configuration Service", some
      [ ("notify", ["Polar PFC Control Point"]) ])
  , ("Polar Measurement Data Service", some
      [ ("notify", ["Polar PMD Control Point", "Polar PMD Data"]) ])
  , ("ZwiftPlay Service", some
      [ ("notify",
          [ "ZwiftPlay Data", "ZwiftPlay Left", "ZwiftPlay Right"
          , "ZwiftPlay Response" ]) ])
  , ("VO2_MASTER_CUSTOM_SERVICE", some
      [ ("notify",
          [ "COM_OUT_UUID", "AMBIENT_GAS_CALIBRATION_CHARACTERISTIC"
          , "VENTILATORY_CHARACTERISTIC", "GAS_EXCHANGE_CHARACTERISTIC"
          , "SYRINGE_FLOW_CALIBRATION_CHARACTERISTIC"
          , "ENVIRONMENT_CHARACTERISTIC" ]) ])
  , ("Nordic UART Service", some
      [ ("notify", ["Nordic UART TX", "Nordic UART RX"]) ]) ]

set_option linter.unusedVariables false in
/-- The Capability Matcher `supported_characteristic` from `bleexplore.py`
lines 140-150.  The Python closure reads the enclosing exploration loop's
variable `char_uuid` (via `uuid_to_name(char_uuid)`) in its decisive
membership test rather than its own `characteristic_name` parameter; that
captured value is made explicit here as the extra first argument
`char_uuid_name` (the resolved name of the loop's current characteristic
UUID).  The declared `characteristic_name` parameter is unused, exactly as
in the source. -/
def supported_characteristic (char_uuid_name : String)
    (service_name characteristic_name characteristic_type : String) : Bool :=
  match lookupA supported_characteristics service_name with
  | none => false
  | some none => false
  | some (some entry) =>
    match lookupA entry characteristic_type with
    | none => false
    | some names => names.contains char_uuid_name

/-- The Capability Matcher as the specification words it: a function of
exactly (service name, characteristic name, category), true exactly when
the characteristic name is present in that category's list for that
service.  Kept separate from `supported_characteristic` so the two can be
compared. -/
def matcherSpec
    (service_name characteristic_name characteristic_type : String) : Bool :=
  match lookupA supported_characteristics service_name with
  | none => false
  | some none => false
  | some (some entry) =>
    match lookupA entry characteristic_type with
    | none => false
    | some names => names.contains characteristic_name

/-! ## Notification dispatch (`MyClient.notification`, lines 232-257)

The Statistics Store `statistics` is a dict of dicts:
device name ↦ (measurement name ↦ count). -/

/-- Inner per-device map: measurement name ↦ count. -/
abbrev Inner := List (String × Nat)

/-- The process-wide Statistics Store: device name ↦ per-device map. -/
abbrev Stats := List (String × Inner)

/-- Modelled from the spec: a Device Decoder (the device-family modules
`polar`/`moxy`/`vo2master` are external collaborators, not part of the
supervised source).  Per the spec's decoder contract it exposes an
identifier-claim predicate `data_check` and a notification handler that
interprets (identifier, payload) and may raise; the dispatcher, not the
decoder, maintains the (device name, measurement name) counters, so the
handler is modelled by its success/raise outcome `handler_raises` alone.
Payloads are abstract (`Nat` identities). -/
structure Decoder where
  data_check : String → Bool
  handler_raises : String → Nat → Bool

/-- The decoder fan-out loop inside `MyClient.notification`: walk the
shared decoder list, invoking the handler of every decoder that claims the
sender UUID (no early exit on a claim); `found` records whether any decoder
claimed.  A raising handler aborts the loop with an exception
(`Except.error`), which the dispatch boundary will catch. -/
def dispatchLoop (uuid : String) (payload : Nat) :
    List Decoder → Bool → Except Unit Bool
  | [], found => .ok found
  | d :: ds, found =>
    if d.data_check uuid then
      if d.handler_raises uuid payload then .error ()
      else dispatchLoop uuid payload ds true
    else dispatchLoop uuid payload ds found

/-- Whether the decoder fan-out for this payload completes without a
decoder exception. -/
def dispatchOk (devs : List Decoder) (uuid : String) (payload : Nat) : Bool :=
  match dispatchLoop uuid payload devs false with
  | .ok _ => true
  | .error _ => false

/-- `MyClient.notification` (lines 232-257): the dispatch callback for one
inbound payload.  `u2n` is the external `uuid_to_name` naming collaborator.
Steps, in source order inside one `try`: (1) create the device's entry in
`statistics` if absent; (2) run the decoder fan-out loop; (3) resolve the
measurement name and increment the (device, measurement) counter, creating
it at 0 first if absent.  The trailing `except Exception` catches a decoder
exception at the dispatch boundary, so the callback always returns a store
— but steps after the raise point, including the counter increment, are
skipped. -/
def notification (u2n : String → String) (supported_devices : List Decoder)
    (uuid : String) (payload : Nat) (device_name : String)
    (statistics : Stats) : Stats :=
  let stats1 : Stats :=
    match lookupA statistics device_name with
    | none => setA statistics device_name []
    | some _ => statistics
  match dispatchLoop uuid payload supported_devices false with
  | .error _ => stats1
  | .ok _found =>
    let measurement_name := u2n uuid
    let inner := (lookupA stats1 device_name).getD []
    let inner1 :=
      match lookupA inner measurement_name with
      | none => setA inner measurement_name 0
      | some _ => inner
    let cnt := (lookupA inner1 measurement_name).getD 0
    setA stats1 device_name (setA inner1 measurement_name (cnt + 1))

/-- Deliver a sequence of payloads on one subscription (fixed sender UUID
and device), in transport order, through the dispatch callback. -/
def dispatchSeq (u2n : String → String) (devs : List Decoder) (uuid : String)
    (device_name : String) : List Nat → Stats → Stats
  | [], st => st
  | p :: ps, st =>
    dispatchSeq u2n devs uuid device_name ps
      (notification u2n devs uuid p device_name st)

/-- Read the Statistics Store counter for a (device, measurement) pair;
an absent nested entry reads as 0. -/
def getCount (st : Stats) (device_name measurement_name : String) : Nat :=
  match lookupA st device_name with
  | none => 0
  | some inner => (lookupA inner measurement_name).getD 0

/-- A decoder that claims every identifier and whose handler always
raises. -/
def raisingDecoder : Decoder :=
  { data_check := fun _ => true, handler_raises := fun _ _ => true }

/-- A decoder that claims every identifier and whose handler always
succeeds. -/
def claimingDecoder : Decoder :=
  { data_check := fun _ => true, handler_raises := fun _ _ => false }

/-- A decoder that claims every identifier and whose handler raises
exactly on payload 0. -/
def flakyDecoder : Decoder :=
  { data_check := fun _ => true, handler_raises := fun _ p => p == 0 }

theorem lookupA_setA_self {α : Type} (l : List (String × α)) (k : String)
    (v : α) : lookupA (setA l k v) k = some v := by
  induction l with
  | nil => simp [setA, lookupA]
  | cons hd tl ih =>
    obtain ⟨k', w⟩ := hd
    by_cases h : k' = k
    · simp [setA, lookupA, h]
    · simp [setA, lookupA, h, ih]

/-- Effect of one dispatch callback on the counter of the payload's own
(device, measurement) pair: +1 when the decoder fan-out completed,
unchanged when a decoder raised (the increment sits after the fan-out loop
inside the same `try`). -/
theorem getCount_notification (u2n : String → String) (devs : List Decoder)
    (uuid : String) (p : Nat) (dn : String) (st : Stats) :
    getCount (notification u2n devs uuid p dn st) dn (u2n uuid) =
      getCount st dn (u2n uuid) +
        (if dispatchOk devs uuid p then 1 else 0) := by
  unfold notification dispatchOk
  cases hl : lookupA st dn with
  | none =>
    cases hd : dispatchLoop uuid p devs false with
    | error e => simp [getCount, hl, hd, lookupA_setA_self, lookupA]
    | ok found => simp [getCount, hl, hd, lookupA_setA_self, lookupA, setA]
  | some inner0 =>
    cases hd : dispatchLoop uuid p devs false with
    | error e => simp [getCount, hl, hd]
    | ok found =>
      cases hm : lookupA inner0 (u2n uuid) with
      | none => simp [getCount, hl, hd, hm, lookupA_setA_self]
      | some n => simp [getCount, hl, hd, hm, lookupA_setA_self]

/-- Accumulation over a whole payload sequence: the counter of the
subscription's (device, measurement) pair grows by exactly the number of
payloads whose decoder fan-out completed without an exception. -/
theorem getCount_dispatchSeq (u2n : String → String) (devs : List Decoder)
    (uuid : String) (dn : String) (ps : List Nat) (st : Stats) :
    getCount (dispatchSeq u2n devs uuid dn ps st) dn (u2n uuid) =
      getCount st dn (u2n uuid) +
        ps.countP (fun p => dispatchOk devs uuid p) := by
  induction ps generalizing st with
  | nil => simp [dispatchSeq]
  | cons p ps ih =>
    rw [dispatchSeq, ih, getCount_notification, List.countP_cons]
    by_cases h : dispatchOk devs uuid p
    · simp only [h, if_true]
      omega
    · simp only [h, Bool.false_eq_true, if_false, decide_eq_true_eq]
      omega

/-- Claim C1, as stated, is false: a payload whose decoder handler raises
does NOT get its Statistics Store counter incremented.  Concretely, a
single always-raising decoder receives one payload for device "PolarH10"
on the "Heart Rate Measurement" characteristic: the handler raises, the
exception is caught at the dispatch boundary, and the counter afterwards is
0, not 1 — the increment sits after the decoder loop inside the same `try`
and is skipped. -/
theorem C1_counterexample :
    raisingDecoder.handler_raises "Heart Rate Measurement" 0 = true ∧
    getCount
      (notification id [raisingDecoder] "Heart Rate Measurement" 0
        "PolarH10" []) "PolarH10" "Heart Rate Measurement" = 0 := by
  decide

/-- Claim C1 (amended): if a decoder handler raises during dispatch of a
payload, the exception is caught at the dispatch boundary (the callback
still returns a store) and the Statistics Store counter for that payload's
(device, measurement) pair is left UNCHANGED — the increment is skipped;
and subsequent payloads on the subscription are still dispatched normally:
a following payload whose fan-out succeeds increments the counter as
usual. -/
theorem C1_theorem (u2n : String → String) (devs : List Decoder)
    (uuid : String) (p q : Nat) (dn : String) (st : Stats)
    (hp : dispatchOk devs uuid p = false)
    (hq : dispatchOk devs uuid q = true) :
    getCount (notification u2n devs uuid p dn st) dn (u2n uuid) =
      getCount st dn (u2n uuid) ∧
    getCount (dispatchSeq u2n devs uuid dn [p, q] st) dn (u2n uuid) =
      getCount st dn (u2n uuid) + 1 := by
  constructor
  · rw [getCount_notification, hp]
    simp
  · rw [getCount_dispatchSeq]
    simp [hp, hq, List.countP_cons]

/-- Witness for `C1_theorem` at a concrete input: one decoder that raises
on payload 0 but not on payload 1. -/
theorem C1_witness :
    getCount (notification id [flakyDecoder] "u" 0 "PolarH10" [])
        "PolarH10" "u" =
      getCount ([] : Stats) "PolarH10" "u" ∧
    getCount (dispatchSeq id [flakyDecoder] "u" "PolarH10" [0, 1] [])
        "PolarH10" "u" =
      getCount ([] : Stats) "PolarH10" "u" + 1 :=
  C1_theorem id [flakyDecoder] "u" 0 1 "PolarH10" [] (by decide) (by decide)

/-- Claim C3, as stated, is false: the counter does not always equal the
number of delivered payloads.  Concretely, with one always-raising decoder,
two payloads delivered to device "MoxySensor" on characteristic "m" leave
the counter at 0, not 2. -/
theorem C3_counterexample :
    getCount (dispatchSeq id [raisingDecoder] "m" "MoxySensor" [0, 1] [])
        "MoxySensor" "m" = 0 ∧
    List.length [0, 1] = 2 := by
  decide

/-- Claim C3 (amended): for every sequence of payloads delivered to one
subscription, the Statistics Store counter for that (device, measurement)
pair equals the number of delivered payloads whose dispatch completed
without a decoder exception — exactly one increment per such payload,
regardless of how many decoders (zero, one, or several) claimed it; claims
do not multiply the count.  In particular, when no decoder raises (e.g.
the count of successful dispatches is the whole sequence), the counter
equals the sequence length. -/
theorem C3_theorem (u2n : String → String) (devs : List Decoder)
    (uuid : String) (dn : String) (ps : List Nat) :
    getCount (dispatchSeq u2n devs uuid dn ps []) dn (u2n uuid) =
      ps.countP (fun p => dispatchOk devs uuid p) := by
  rw [getCount_dispatchSeq]
  simp [getCount, lookupA]

/-- Claim C2, as stated, is false: the matcher does not return true exactly
when the characteristic name argument is present in the category's list.
Concretely, "Heart Rate Measurement" IS in the notify list of service
"Heart Rate" (second conjunct, stated via the spec-worded `matcherSpec`),
yet the call returns false when the enclosing loop's current characteristic
UUID resolves to a different name ("Body Sensor Location"): the decisive
membership test reads the captured `char_uuid`, not the
`characteristic_name` parameter. -/
theorem C2_counterexample :
    supported_characteristic "Body Sensor Location" "Heart Rate"
        "Heart Rate Measurement" "notify" = false ∧
    matcherSpec "Heart Rate" "Heart Rate Measurement" "notify" = true := by
  decide

/-- Claim C2 (amended): the matcher's decisive membership test uses the
resolved name of the enclosing exploration loop's current characteristic
UUID (`uuid_to_name(char_uuid)`), which at both call sites equals the
characteristic-name argument.  Under that equality the claim holds: the
call equals the spec-worded matcher, and it returns true exactly when the
service is in the Support Table with a non-`None` entry, the category key
is present under it, and the characteristic name is in that category's
list — hence false when the service is absent, the entry is the explicit
no-capabilities marker, the category key is missing, or the name is missing
from the list. -/
theorem C2_theorem (c s n t : String) (h : c = n) :
    supported_characteristic c s n t = matcherSpec s n t ∧
    (matcherSpec s n t = true ↔
      ∃ entry names,
        lookupA supported_characteristics s = some (some entry) ∧
          lookupA entry t = some names ∧ n ∈ names) := by
  subst h
  refine ⟨rfl, ?_⟩
  unfold matcherSpec
  cases h1 : lookupA supported_characteristics s with
  | none => simp [h1]
  | some o =>
    cases o with
    | none => simp
    | some entry =>
      cases h2 : lookupA entry t with
      | none => simp [h2]
      | some names => simp [h2, List.contains, List.elem_iff]

/-- Witness for `C2_theorem` at a concrete input: the "Heart Rate
Measurement" characteristic under service "Heart Rate", category
"notify". -/
theorem C2_witness :
    supported_characteristic "Heart Rate Measurement" "Heart Rate"
      "Heart Rate Measurement" "notify" = true := by
  have h :=
    C2_theorem "Heart Rate Measurement" "Heart Rate" "Heart Rate Measurement"
      "notify" rfl
  rw [h.1]
  exact h.2.mpr
    ⟨[ ("read", ["Heart Rate Control Point"])
     , ("notify", ["Heart Rate Measurement"])
     , ("ignore", ["Body Sensor Location"]) ],
     ["Heart Rate Measurement"], by decide, by decide, by decide⟩

/-- Claim C8 is right and the code is wrong: `supported_characteristic` is
NOT a function of exactly its three declared inputs.  Two calls with
identical (service name, characteristic name, category) arguments return
different booleans because the decisive membership test consults the
enclosing loop's captured `char_uuid` instead of the `characteristic_name`
parameter (which the function never reads). -/
theorem C8_theorem :
    supported_characteristic "Body Sensor Location" "Heart Rate"
        "Heart Rate Measurement" "notify" = false ∧
    supported_characteristic "Heart Rate Measurement" "Heart Rate"
        "Heart Rate Measurement" "notify" = true := by
  decide

/-! ## Scanner/Registry (`detection_callback`, lines 471-485;
`handle_task_result`, lines 444-455; `__main__`, lines 539-545) -/

/-- Character-list match at the front (helper for substring search). -/
def strPref : List Char → List Char → Bool
  | [], _ => true
  | _ :: _, [] => false
  | a :: as, b :: bs => a == b && strPref as bs

/-- Substring occurrence anywhere in a character list. -/
def strSubChars (needle : List Char) : List Char → Bool
  | [] => strPref needle []
  | b :: bs => strPref needle (b :: bs) || strSubChars needle bs

/-- Python `needle.lower() in hay.lower()`: case-insensitive substring
containment, as used by the scanner's filter test
`a.lower() in dev.name.lower()`. -/
def strSub (needle hay : String) : Bool :=
  strSubChars (needle.data.map Char.toLower) (hay.data.map Char.toLower)

/-- Registry membership test `dev.name not in tasks`, as a proposition. -/
theorem containsA_iff (l : List String) (a : String) :
    l.contains a = true ↔ a ∈ l := by
  simp [List.contains, List.elem_iff]

/-- `detection_callback` (lines 471-485), acting on the task registry
(modelled by its key list, in insertion order): given an advertisement
carrying an optional device name, spawn a supervisor (returning the
extended registry and `true`) exactly when the name is present, not already
registered, and contains at least one operator filter substring
case-insensitively; otherwise leave the registry unchanged and spawn
nothing. -/
def detection_callback (argv : List String) (tasks : List String)
    (name : Option String) : List String × Bool :=
  match name with
  | none => (tasks, false)
  | some n =>
    if tasks.contains n then (tasks, false)
    else if argv.any (fun a => strSub a n) then (tasks ++ [n], true)
    else (tasks, false)

/-- An event observed by the scanner loop: an advertisement, or the
termination of a named supervisor task (delivered to the done-callback
`handle_task_result`). -/
inductive ScanEvent where
  | ad (name : Option String)
  | taskDone (name : String)

/-- One scanner-loop step.  `handle_task_result` (lines 444-455) only logs
the terminated task's outcome; nothing in the program ever removes an entry
from the `tasks` registry, so a task's termination leaves the registry
unchanged. -/
def scanStep (argv : List String) (tasks : List String) :
    ScanEvent → List String × Bool
  | .ad n => detection_callback argv tasks n
  | .taskDone _ => (tasks, false)

/-- Fold a sequence of scanner events over the registry. -/
def scanRun (argv : List String) : List ScanEvent → List String → List String
  | [], tasks => tasks
  | e :: es, tasks => scanRun argv es (scanStep argv tasks e).1

example : strSub "polar" "PolarH10" = true := by decide
example : strSub "polar" "MoxySensor" = false := by decide
example :
    scanRun ["polar"]
      [ScanEvent.ad (some "PolarH10"), ScanEvent.ad (some "MoxySensor"),
       ScanEvent.ad (some "PolarH10")] [] = ["PolarH10"] := by decide

/-- Registry invariant: starting from a registry with no duplicate names
all of which match some filter, any event sequence preserves both
properties. -/
theorem scanRun_inv (argv : List String) (es : List ScanEvent)
    (tasks : List String) (h1 : tasks.Nodup)
    (h2 : ∀ n ∈ tasks, ∃ a ∈ argv, strSub a n = true) :
    (scanRun argv es tasks).Nodup ∧
      ∀ n ∈ scanRun argv es tasks, ∃ a ∈ argv, strSub a n = true := by
  induction es generalizing tasks with
  | nil => exact ⟨h1, h2⟩
  | cons e es ih =>
    cases e with
    | taskDone m =>
      rw [scanRun, scanStep]
      exact ih tasks h1 h2
    | ad nm =>
      cases nm with
      | none =>
        rw [scanRun, scanStep, detection_callback]
        exact ih tasks h1 h2
      | some n =>
        rw [scanRun, scanStep, detection_callback]
        by_cases hc : n ∈ tasks
        · have hc' : tasks.contains n = true := (containsA_iff tasks n).mpr hc
          simp only [hc', if_true]
          exact ih tasks h1 h2
        · have hc' : tasks.contains n = false := by
            rw [Bool.eq_false_iff]
            intro hx
            exact hc ((containsA_iff tasks n).mp hx)
          simp only [hc', Bool.false_eq_true, if_false]
          by_cases ha : argv.any (fun a => strSub a n) = true
          · simp only [ha, if_true]
            refine ih (tasks ++ [n]) ?_ ?_
            · simp [List.nodup_append, h1, hc]
            · intro m hm
              rcases List.mem_append.mp hm with hm | hm
              · exact h2 m hm
              · rcases List.mem_singleton.mp hm with rfl
                rcases List.any_eq_true.mp ha with ⟨a, haa, hsa⟩
                exact ⟨a, haa, hsa⟩
          · simp only [Bool.eq_false_iff.mpr ha, Bool.false_eq_true, if_false]
            exact ih tasks h1 h2

/-- Claim C5: processing any sequence of advertisement/termination events
from an empty registry, (1) the registry never holds duplicate names — at
most one supervisor task per device name is ever live; (2) every registered
name contains, case-insensitively, at least one operator filter substring —
a name matching no filter is never registered; and (3) one callback
invocation spawns a supervisor exactly when the advertised name is not
`none`, is not already registered, and matches some filter — in particular
an advertisement for an already-registered name spawns nothing and leaves
the registry unchanged. -/
theorem C5_theorem (argv : List String) (es : List ScanEvent) :
    (scanRun argv es []).Nodup ∧
    (∀ n ∈ scanRun argv es [], ∃ a ∈ argv, strSub a n = true) ∧
    (∀ tasks : List String, ∀ nm : Option String,
      (detection_callback argv tasks nm).2 = true ↔
        ∃ n, nm = some n ∧ n ∉ tasks ∧ ∃ a ∈ argv, strSub a n = true) ∧
    (∀ tasks : List String, ∀ n ∈ tasks,
      detection_callback argv tasks (some n) = (tasks, false)) := by
  obtain ⟨h1, h2⟩ := scanRun_inv argv es [] (by simp) (by simp)
  refine ⟨h1, h2, ?_, ?_⟩
  · intro tasks nm
    cases nm with
    | none => simp [detection_callback]
    | some n =>
      by_cases hc : n ∈ tasks
      · have hc' : tasks.contains n = true := (containsA_iff tasks n).mpr hc
        simp only [detection_callback, hc', if_true]
        constructor
        · intro hx
          exact absurd hx (by simp)
        · rintro ⟨m, hm, hmt, -⟩
          rcases Option.some.injEq .. ▸ hm with rfl
          exact absurd hc hmt
      · have hc' : tasks.contains n = false := by
          rw [Bool.eq_false_iff]
          intro hx
          exact hc ((containsA_iff tasks n).mp hx)
        by_cases ha : argv.any (fun a => strSub a n) = true
        · rcases List.any_eq_true.mp ha with ⟨a, haa, hsa⟩
          constructor
          · intro _
            exact ⟨n, rfl, hc, a, haa, hsa⟩
          · intro _
            simp [detection_callback, hc', ha, hc]
        · have ha' := Bool.eq_false_iff.mpr ha
          simp only [detection_callback, hc', Bool.false_eq_true, if_false,
            ha', if_false]
          constructor
          · intro hx
            exact absurd hx (by simp)
          · rintro ⟨m, hm, _, a, haa, hsa⟩
            rcases Option.some.injEq .. ▸ hm with rfl
            exact absurd (List.any_eq_true.mpr ⟨a, haa, hsa⟩)
              (Bool.eq_false_iff.mp ha')
  · intro tasks n hn
    have hc' : tasks.contains n = true := (containsA_iff tasks n).mpr hn
    simp only [detection_callback, hc', if_true]

/-- Witness for `C5_theorem` at the specification's own example: filters
`["polar"]`, simultaneous advertisements "PolarH10" and "MoxySensor" (and a
repeat of "PolarH10"): the registry ends up `["PolarH10"]` with no
duplicates, and the repeat advertisement spawns nothing. -/
theorem C5_witness :
    (scanRun ["polar"]
      [ScanEvent.ad (some "PolarH10"), ScanEvent.ad (some "MoxySensor"),
       ScanEvent.ad (some "PolarH10")] []).Nodup ∧
    detection_callback ["polar"] ["PolarH10"] (some "PolarH10") =
      (["PolarH10"], false) :=
  ⟨( C5_theorem ["polar"]
      [ScanEvent.ad (some "PolarH10"), ScanEvent.ad (some "MoxySensor"),
       ScanEvent.ad (some "PolarH10")]).1,
   ( C5_theorem ["polar"] []).2.2.2 ["PolarH10"] "PolarH10" (by decide)⟩

/-- Claim C6, as stated, is false: after the "PolarH10" supervisor task
terminates (its `taskDone` event is processed by `handle_task_result`), a
subsequent advertisement carrying the same name does NOT start a brand-new
supervisor: the registry still holds "PolarH10" — nothing ever removes a
terminated task's entry — so the callback spawns nothing. -/
theorem C6_counterexample :
    scanRun ["polar"]
      [ScanEvent.ad (some "PolarH10"), ScanEvent.taskDone "PolarH10"] [] =
      ["PolarH10"] ∧
    detection_callback ["polar"] ["PolarH10"] (some "PolarH10") =
      (["PolarH10"], false) := by
  decide

/-- Claim C6 (amended): a terminated supervisor's registry entry is NOT
destroyed — `handle_task_result` only logs, and no code path removes a name
from the registry — so a registered name survives any further event
sequence, and a subsequent advertisement carrying that name spawns nothing
and leaves the registry unchanged (the dead name is never respawned). -/
theorem C6_theorem (argv : List String) (es : List ScanEvent)
    (tasks : List String) (n : String) (h : n ∈ tasks) :
    n ∈ scanRun argv es tasks ∧
    detection_callback argv tasks (some n) = (tasks, false) := by
  constructor
  · induction es generalizing tasks with
    | nil => exact h
    | cons e es ih =>
      rw [scanRun]
      apply ih
      cases e with
      | taskDone m => exact h
      | ad nm =>
        cases nm with
        | none => exact h
        | some m =>
          rw [scanStep, detection_callback]
          by_cases hc : tasks.contains m = true
          · simp only [hc, if_true]
            exact h
          · simp only [Bool.eq_false_iff.mpr hc, Bool.false_eq_true, if_false]
            by_cases ha : argv.any (fun a => strSub a m) = true
            · simp only [ha, if_true]
              exact List.mem_append_left _ h
            · simp only [Bool.eq_false_iff.mpr ha, Bool.false_eq_true,
                if_false]
              exact h
  · have hc' : tasks.contains n = true := (containsA_iff tasks n).mpr h
    simp only [detection_callback, hc', if_true]

/-- Witness for `C6_theorem`: with "PolarH10" already registered, a
termination event followed by a fresh "PolarH10" advertisement leaves it
registered, and the advertisement spawns nothing. -/
theorem C6_witness :
    "PolarH10" ∈ scanRun ["polar"]
      [ScanEvent.taskDone "PolarH10", ScanEvent.ad (some "PolarH10")]
      ["PolarH10"] ∧
    detection_callback ["polar"] ["PolarH10"] (some "PolarH10") =
      (["PolarH10"], false) :=
  C6_theorem ["polar"]
    [ScanEvent.taskDone "PolarH10", ScanEvent.ad (some "PolarH10")]
    ["PolarH10"] "PolarH10" (by decide)

/-! ## CLI wiring (`__main__`, lines 539-545) -/

/-- The filter list handed to `main`: the script passes `sys.argv[1:]`
(everything after the program name), regardless of the computed default. -/
def script_argv (sys_argv : List String) : List String := sys_argv.drop 1

/-- The local variable `name` computed in `__main__`
(`'Polar' if len(sys.argv) == 1 else sys.argv[1]`) — computed but never
passed to `main`. -/
def script_name (sys_argv : List String) : String :=
  if sys_argv.length = 1 then "Polar" else (sys_argv.drop 1).headD "Polar"

/-- Claim C9 is right about the intent and the code is wrong: started with
no positional arguments (`sys.argv = ["bleexplore.py"]`), the script
computes the built-in default "Polar" into the unused variable `name` but
passes `sys.argv[1:] = []` to `main`, so the scanner's filter list is
empty: an advertisement for "PolarH10" — which DOES contain "Polar"
case-insensitively — matches nothing and spawns no supervisor, contrary to
the claimed default-filter behaviour. -/
theorem C9_theorem :
    script_name ["bleexplore.py"] = "Polar" ∧
    strSub "Polar" "PolarH10" = true ∧
    script_argv ["bleexplore.py"] = [] ∧
    detection_callback (script_argv ["bleexplore.py"]) []
      (some "PolarH10") = ([], false) := by
  decide

/-! ## Connection supervisor loop (`device_task` lines 399-417,
`MyClient.connect` lines 274-324) -/

/-- Outcome of one `MyClient.connect` attempt: success, or one of the three
caught failure classes — `asyncio.TimeoutError`, transport `BleakError`,
or any other exception.  All three failure paths are caught inside
`connect`, which then returns `False`; `connect` itself never raises. -/
inductive ConnectOutcome where
  | success
  | timeout
  | bleakError
  | otherError
deriving DecidableEq

/-- The boolean `MyClient.connect` returns for each outcome: `True` only
when the transport confirms the link. -/
def connect_result : ConnectOutcome → Bool
  | .success => true
  | .timeout => false
  | .bleakError => false
  | .otherError => false

/-- Observable events of the supervisor's outer `while True` loop. -/
inductive SupEvent where
  | connectAttempt (ok : Bool)
  | explored
  | cycleDisconnect
deriving DecidableEq

/-- The outer loop of `device_task` (lines 406-417), unrolled along a
schedule giving each iteration's connect outcome.  A failed connect logs
and `continue`s straight back to the next attempt (the Disconnected state);
a successful connect explores, disconnects, clears the stop event, and also
`continue`s.  Every branch of the loop body ends in `continue` — the loop
has no exit of its own — so processing a schedule of N outcomes performs
exactly N connect attempts and leaves the loop ready for the next. -/
def device_task_trace : List ConnectOutcome → List SupEvent
  | [] => []
  | c :: rest =>
    if connect_result c then
      SupEvent.connectAttempt true :: SupEvent.explored ::
        SupEvent.cycleDisconnect :: device_task_trace rest
    else
      SupEvent.connectAttempt false :: device_task_trace rest

/-- Number of connect attempts in a supervisor trace. -/
def countAttempts : List SupEvent → Nat
  | [] => 0
  | SupEvent.connectAttempt _ :: tr => countAttempts tr + 1
  | SupEvent.explored :: tr => countAttempts tr
  | SupEvent.cycleDisconnect :: tr => countAttempts tr

/-- Every scheduled loop iteration performs exactly one connect attempt,
whatever its outcome: the loop never exits early. -/
theorem countAttempts_device_task_trace (l : List ConnectOutcome) :
    countAttempts (device_task_trace l) = l.length := by
  induction l with
  | nil => rfl
  | cons c rest ih =>
    by_cases h : connect_result c = true
    · simp [device_task_trace, h, countAttempts, ih]
    · simp [device_task_trace, Bool.eq_false_iff.mpr h, countAttempts, ih]

/-- Claim C4: a supervisor whose connect attempt fails N consecutive times
performs an (N+1)-th attempt.  For any schedule of N failing outcomes
(timeout or transport-level error or any other caught exception), the loop
trace is exactly N "connect attempt failed" events — each failure returns
control to the Disconnected state with nothing else happening — and
extending the schedule by any further outcome yields a trace with N+1
connect attempts: the retry is unconditional, with no upper bound, and a
connect failure never terminates the loop (no loop branch exits). -/
theorem C4_theorem (sched : List ConnectOutcome) (next : ConnectOutcome)
    (h : ∀ c ∈ sched, connect_result c = false) :
    device_task_trace sched =
      sched.map (fun _ => SupEvent.connectAttempt false) ∧
    countAttempts (device_task_trace (sched ++ [next])) =
      sched.length + 1 := by
  constructor
  · induction sched with
    | nil => rfl
    | cons c rest ih =>
      have hc := h c (by simp)
      rw [device_task_trace, hc]
      simp only [Bool.false_eq_true, if_false, List.map_cons]
      exact congrArg _ (ih fun x hx => h x (List.mem_cons_of_mem _ hx))
  · rw [countAttempts_device_task_trace]
    simp

/-- Witness for `C4_theorem`: two consecutive failures (a timeout then a
transport error) are followed by a third attempt. -/
theorem C4_witness :
    device_task_trace [ConnectOutcome.timeout, ConnectOutcome.bleakError] =
      [SupEvent.connectAttempt false, SupEvent.connectAttempt false] ∧
    countAttempts
      (device_task_trace
        [ConnectOutcome.timeout, ConnectOutcome.bleakError,
         ConnectOutcome.otherError]) = 3 :=
  C4_theorem [ConnectOutcome.timeout, ConnectOutcome.bleakError]
    ConnectOutcome.otherError (by decide)

/-! ## Decoder start loop (`device_explore` lines 203-218) -/

/-- Modelled from the spec: the part of a Device Decoder that
`device_explore`'s start section uses — a `name`, the service-presence
predicate `service_check` over the discovered service set (abstracted to
its keys), and whether the one-time `start` call raises.  The concrete
decoder classes live in the external `polar`/`moxy`/`vo2master` modules. -/
structure StartDecoder where
  name : String
  service_check : List String → Bool
  start_raises : Bool

/-- The decoder start section of `device_explore` (lines 203-212): a single
`try` wraps the WHOLE `for device in supported_devices` loop; each decoder
whose `service_check` matches gets its `start` call, but if one `start`
raises, the `except` catches the exception outside the loop, so the
remaining decoders are never reached.  Returns (names started, whether a
start raised). -/
def start_loop (services : List String) :
    List StartDecoder → List String × Bool
  | [] => ([], false)
  | d :: ds =>
    if d.service_check services then
      if d.start_raises then ([], true)
      else
        ((start_loop services ds).1.cons d.name, (start_loop services ds).2)
    else start_loop services ds

/-- Where control goes after the start section's `try/except`. -/
inductive ExplorePhase where
  | runningWait
deriving DecidableEq

set_option linter.unusedVariables false in
/-- After the decoder start section — whether or not its `except` caught an
exception — `device_explore` proceeds to `await task_stop_event.wait()`
(line 215), the Running wait. -/
def device_explore_after_start (r : List String × Bool) : ExplorePhase :=
  ExplorePhase.runningWait

/-- A decoder whose device is present and whose start call raises. -/
def decoderA : StartDecoder :=
  { name := "A", service_check := fun _ => true, start_raises := true }

/-- A decoder whose device is present and whose start call succeeds. -/
def decoderB : StartDecoder :=
  { name := "B", service_check := fun _ => true, start_raises := false }

/-- Claim C7, as stated, is false: an exception in one decoder's start call
DOES prevent the start calls of the remaining decoders.  Concretely, with
decoder A (matching, start raises) listed before decoder B (matching, start
succeeds), B's service-presence predicate matches yet nobody is started:
the single `try` wraps the whole loop, so A's exception aborts it before
B's turn. -/
theorem C7_counterexample :
    decoderB.service_check [] = true ∧
    (start_loop [] [decoderA, decoderB]).1 = [] ∧
    (start_loop [] [decoderA, decoderB]).2 = true := by
  decide

/-- Claim C7 (amended): the decoders started are exactly the matching ones
that precede the first matching decoder whose start raises (so when no
matching decoder raises, every decoder whose service-presence predicate
matches receives its one-time start call); an exception inside one start
call is caught — the loop result records it — and does not abort the
connection: control still proceeds to the Running wait; but the matching
decoders after the raising one are skipped, not started. -/
theorem C7_theorem (services : List String) (ds : List StartDecoder) :
    (start_loop services ds).1 =
      ((ds.takeWhile
          (fun d => !(d.service_check services && d.start_raises))).filter
        (fun d => d.service_check services)).map (fun d => d.name) ∧
    (start_loop services ds).2 =
      ds.any (fun d => d.service_check services && d.start_raises) ∧
    ((∀ d ∈ ds, d.service_check services = true → d.start_raises = false) →
      (start_loop services ds).1 =
        (ds.filter (fun d => d.service_check services)).map
          (fun d => d.name)) ∧
    device_explore_after_start (start_loop services ds) =
      ExplorePhase.runningWait := by
  refine ⟨?_, ?_, ?_, rfl⟩
  · induction ds with
    | nil => rfl
    | cons d ds ih =>
      by_cases hm : d.service_check services = true
      · by_cases hr : d.start_raises = true
        · simp [start_loop, hm, hr, List.takeWhile_cons]
        · have hr' := Bool.eq_false_iff.mpr hr
          simp [start_loop, hm, hr', List.takeWhile_cons, ih]
      · have hm' := Bool.eq_false_iff.mpr hm
        simp [start_loop, hm', List.takeWhile_cons, ih]
  · induction ds with
    | nil => rfl
    | cons d ds ih =>
      by_cases hm : d.service_check services = true
      · by_cases hr : d.start_raises = true
        · simp [start_loop, hm, hr]
        · have hr' := Bool.eq_false_iff.mpr hr
          simp [start_loop, hm, hr', ih]
      · have hm' := Bool.eq_false_iff.mpr hm
        simp [start_loop, hm', ih]
  · intro hall
    induction ds with
    | nil => rfl
    | cons d ds ih =>
      have ih' := ih fun x hx => hall x (List.mem_cons_of_mem _ hx)
      by_cases hm : d.service_check services = true
      · have hr' : d.start_raises = false := hall d (by simp) hm
        simp [start_loop, hm, hr', ih']
      · have hm' := Bool.eq_false_iff.mpr hm
        simp [start_loop, hm', ih']

/-- Witness for `C7_theorem` at a concrete input: a lone matching,
non-raising decoder is started. -/
theorem C7_witness : (start_loop [] [decoderB]).1 = ["B"] := by
  rw [(C7_theorem [] [decoderB]).1]
  decide

/-! ## Supervisor termination (`device_task` lines 419-442,
`handle_task_result` lines 444-455, shutdown awaiter lines 505-512) -/

/-- How the supervisor's `while True` body stops executing.  The loop body
has no `break` or `return`, so it can only be left by an exception — the
`CancelledError` thrown in by task cancellation, or any other exception.
`normalReturn` is included to make the `try/except/finally` embedding
total, though the source loop cannot produce it. -/
inductive LoopExit where
  | normalReturn
  | cancelledErr
  | otherExc
deriving DecidableEq

/-- A Python exception, as far as the surrounding handlers distinguish it:
`CancelledError` (a `BaseException`, not caught by `except Exception`), or
an ordinary `Exception` subclass (`NameError` from the first handler's
unbound `e`, or anything else). -/
inductive PyExc where
  | cancelledE
  | nameE
  | otherE
deriving DecidableEq

/-- The in-flight exception entering `device_task`'s `finally` block, per
loop exit.  The `except asyncio.CancelledError` handler (line 419) logs via
the unbound variable `e`, raising `NameError` before it can re-raise; the
generic `except Exception` handler logs and raises a fresh
`CancelledError` (line 431). -/
def device_task_handlers : LoopExit → Option PyExc
  | .normalReturn => none
  | .cancelledErr => some .nameE
  | .otherExc => some .cancelledE

/-- Behaviour of the finalization's own `await myclient.disconnect()`
(line 435): completes, raises an ordinary `Exception` (caught by the inner
`except Exception` at line 437), or raises a `BaseException` such as a
fresh `CancelledError` (which that handler does not catch). -/
inductive CleanupBehavior where
  | ok
  | raisesExc
  | raisesBase
deriving DecidableEq

/-- Completion of an asyncio task as its awaiter observes it: a normal
result value, cancelled, or failed with an exception. -/
inductive TaskResult where
  | value (b : Bool)
  | cancelled
  | failed
deriving DecidableEq

set_option linter.unusedVariables false in
/-- The `finally` block of `device_task` (lines 432-442): an inner
`try / except Exception / finally` around the disconnect, then
`return True`.  Per Python semantics, reaching `return` inside a `finally`
suppresses whatever in-flight exception entered the block — the task
completes with that value; only a `BaseException` escaping the inner `try`
prevents the `return` from being reached, in which case it replaces the
in-flight exception. -/
def device_task_finalize (inflight : Option PyExc) (c : CleanupBehavior) :
    TaskResult :=
  match c with
  | .ok => .value true
  | .raisesExc => .value true
  | .raisesBase => .cancelled

/-- The completion of the whole `device_task` coroutine: the loop exits by
`x`, the handlers convert it to an in-flight exception, and the `finally`
block (with cleanup behaviour `c`) determines the task's result. -/
def device_task_result (x : LoopExit) (c : CleanupBehavior) : TaskResult :=
  device_task_finalize (device_task_handlers x) c

/-- What `handle_task_result` logs for a finished task. -/
inductive TaskLog where
  | finishedLog
  | cancelledLog
  | exceptionLog
deriving DecidableEq

/-- `handle_task_result` (lines 444-455): calls `task.result()` and logs
Finished on a normal value, Cancelled on `CancelledError`, or the exception
with its trace. -/
def handle_task_result : TaskResult → TaskLog
  | .value _ => .finishedLog
  | .cancelled => .cancelledLog
  | .failed => .exceptionLog

/-- What the shutdown coordinator's `await task` (lines 505-512) observes:
a normal result, a caught `CancelledError` (its `except
asyncio.CancelledError: pass`), or a caught and logged exception. -/
inductive AwaitObs where
  | normalResult (b : Bool)
  | cancelledCaught
  | excCaught
deriving DecidableEq

/-- The shutdown coordinator's per-task await in `main`. -/
def main_await_task : TaskResult → AwaitObs
  | .value b => .normalResult b
  | .cancelled => .cancelledCaught
  | .failed => .excCaught

/-- Claim C10: `device_task`'s finalization ends with `return True`, which
suppresses any in-flight exception — including the `CancelledError` thrown
in by task cancellation (and the `NameError` the cancellation handler
itself raises via its unbound `e`).  Provided the finalization's own
disconnect does not raise a fresh `BaseException`, every loop exit — the
(unreachable) normal return, cancellation, or an internal error — makes the
task complete with the value `True`: its done-callback logs the Finished
branch, and awaiting it in the shutdown coordinator observes a normal
result rather than a re-raise. -/
theorem C10_theorem (x : LoopExit) (c : CleanupBehavior)
    (h : c ≠ CleanupBehavior.raisesBase) :
    device_task_result x c = TaskResult.value true ∧
    handle_task_result (device_task_result x c) = TaskLog.finishedLog ∧
    main_await_task (device_task_result x c) = AwaitObs.normalResult true := by
  cases c with
  | ok => exact ⟨rfl, rfl, rfl⟩
  | raisesExc => exact ⟨rfl, rfl, rfl⟩
  | raisesBase => exact absurd rfl h

/-- Witness for `C10_theorem`: a cancelled supervisor whose final
disconnect completes still ends with result `True`, observed as Finished. -/
theorem C10_witness :
    device_task_result LoopExit.cancelledErr CleanupBehavior.ok =
      TaskResult.value true ∧
    handle_task_result
        (device_task_result LoopExit.cancelledErr CleanupBehavior.ok) =
      TaskLog.finishedLog ∧
    main_await_task
        (device_task_result LoopExit.cancelledErr CleanupBehavior.ok) =
      AwaitObs.normalResult true :=
  C10_theorem LoopExit.cancelledErr CleanupBehavior.ok (by decide)

end BleExplore
